import Mathlib

/-!
Verification of the Cyberia2000 physics / terrain / network-sync core.

Shallow embedding of the JavaScript source into Lean 4:
JS numbers are modelled as real numbers, `THREE.Vector3` as `Vec3`,
`THREE.Box3` as `Box3`, quaternion records as `Quat`.  Stateful methods
become pure functions from the old state to the new state (plus, for the
weapon system, a list of emitted presentation events).  Every definition
follows the corresponding source function line by line.
-/

namespace Cyberia

/-- `THREE.Vector3`: a 3-component vector of JS numbers. -/
structure Vec3 where
  x : ℝ
  y : ℝ
  z : ℝ

attribute [ext] Vec3

noncomputable section

/-- Componentwise vector addition (`Vector3.add`). -/
def vadd (a b : Vec3) : Vec3 := ⟨a.x + b.x, a.y + b.y, a.z + b.z⟩

/-- Componentwise vector subtraction (`Vector3.sub`). -/
def vsub (a b : Vec3) : Vec3 := ⟨a.x - b.x, a.y - b.y, a.z - b.z⟩

/-- Scalar multiple (`Vector3.multiplyScalar`). -/
def vsmul (s : ℝ) (a : Vec3) : Vec3 := ⟨s * a.x, s * a.y, s * a.z⟩

/-- `Vector3.addScaledVector(w, s)`: `v + w*s`. -/
def vaddScaled (v w : Vec3) (s : ℝ) : Vec3 :=
  ⟨v.x + w.x * s, v.y + w.y * s, v.z + w.z * s⟩

/-- `Vector3.dot`. -/
def vdot (a b : Vec3) : ℝ := a.x * b.x + a.y * b.y + a.z * b.z

/-- `Vector3.lengthSq`. -/
def vlengthSq (a : Vec3) : ℝ := a.x ^ 2 + a.y ^ 2 + a.z ^ 2

/-- `Vector3.length`. -/
def vlength (a : Vec3) : ℝ := Real.sqrt (vlengthSq a)

/-- `Vector3.normalize`: `divideScalar(length() || 1)` — a zero-length vector
is divided by 1 (left unchanged). -/
def vnormalize (a : Vec3) : Vec3 :=
  let l := vlength a
  let d := if l = 0 then 1 else l
  ⟨a.x / d, a.y / d, a.z / d⟩

/-- `Vector3.setLength(l)`: `normalize().multiplyScalar(l)`. -/
def vsetLength (a : Vec3) (l : ℝ) : Vec3 := vsmul l (vnormalize a)

/-- `THREE.Box3`: an axis-aligned box. -/
structure Box3 where
  min : Vec3
  max : Vec3

/-- `Box3.getCenter`. -/
def boxCenter (b : Box3) : Vec3 :=
  ⟨(b.min.x + b.max.x) / 2, (b.min.y + b.max.y) / 2, (b.min.z + b.max.z) / 2⟩

/-- `Box3.intersectsBox(other)` (THREE: six separating-axis tests, touching
boxes count as intersecting). -/
def intersectsBox (self other : Box3) : Prop :=
  ¬(other.max.x < self.min.x ∨ other.min.x > self.max.x ∨
    other.max.y < self.min.y ∨ other.min.y > self.max.y ∨
    other.max.z < self.min.z ∨ other.min.z > self.max.z)

instance (a b : Box3) : Decidable (intersectsBox a b) := by
  unfold intersectsBox; infer_instance

/-- `Box3.containsPoint`. -/
def containsPoint (b : Box3) (p : Vec3) : Prop :=
  ¬(p.x < b.min.x ∨ p.x > b.max.x ∨
    p.y < b.min.y ∨ p.y > b.max.y ∨
    p.z < b.min.z ∨ p.z > b.max.z)

instance (b : Box3) (p : Vec3) : Decidable (containsPoint b p) := by
  unfold containsPoint; infer_instance

/-- `Math.sign(t) || 1`: the JS fallback replaces the sign 0 by 1. -/
def signOr1 (t : ℝ) : ℝ := if 0 < t then 1 else if t < 0 then -1 else 1

/-- `THREE.MathUtils.lerp`. -/
def lerp (a b t : ℝ) : ℝ := a + (b - a) * t

end

/- Constants of `config.js` used by the physics system. -/
namespace CONFIG

noncomputable def chunkSize : ℝ := 200
noncomputable def gravity : ℝ := 38.5
noncomputable def terminalVelocity : ℝ := 150
noncomputable def groundFriction : ℝ := 10.0
noncomputable def airDrag : ℝ := 0.35
noncomputable def slopeLimit : ℝ := 0.92
noncomputable def stepHeight : ℝ := 0.75

end CONFIG

/-- A physics body as registered with `PhysicsSystem.registerBody`.  The JS
body is a dynamic object; these are the fields the physics system and its
callers touch.  `noGravity`, `noCollisions` and `isVehicle` are flags set by
`PlayerController.enterVehicle` and `VehicleManager.registerVehicleColliders`. -/
structure Body where
  position : Vec3
  velocity : Vec3
  groundNormal : Vec3
  radius : ℝ
  height : ℝ
  mass : ℝ
  damping : ℝ
  friction : ℝ
  bounciness : ℝ
  slopeLimit : ℝ
  grounded : Bool
  noGravity : Bool
  noCollisions : Bool
  isVehicle : Bool

noncomputable section

/-- The capsule-approximating AABB built at the top of
`PhysicsSystem.resolveCollisions` and rebuilt after every correction. -/
def capsuleBox (p : Vec3) (radius height : ℝ) : Box3 :=
  ⟨⟨p.x - radius, p.y, p.z - radius⟩, ⟨p.x + radius, p.y + height, p.z + radius⟩⟩

/-- Intermediate state threaded through the collider loop of
`resolveCollisions`: the body's position and velocity plus the `onGround`
flag accumulated so far. -/
structure ResolveState where
  position : Vec3
  velocity : Vec3
  onGround : Bool

/-- `overlapX` of `resolveCollisions`. -/
def overlapX (a b : Box3) : ℝ := min a.max.x b.max.x - max a.min.x b.min.x

/-- `overlapY` of `resolveCollisions`. -/
def overlapY (a b : Box3) : ℝ := min a.max.y b.max.y - max a.min.y b.min.y

/-- `overlapZ` of `resolveCollisions`. -/
def overlapZ (a b : Box3) : ℝ := min a.max.z b.max.z - max a.min.z b.min.z

/-- One iteration of the `for (const box of colliders)` loop of
`PhysicsSystem.resolveCollisions` (src/js/physics.js lines 194-231). -/
def resolveStep (radius height : ℝ) (st : ResolveState) (box : Box3) : ResolveState :=
  let capsule := capsuleBox st.position radius height
  if ¬ intersectsBox capsule box then st
  else
    let ox := overlapX capsule box
    let oy := overlapY capsule box
    let oz := overlapZ capsule box
    if ox ≤ 0 ∨ oy ≤ 0 ∨ oz ≤ 0 then st
    else
      let minPenetration := min ox (min oy oz)
      let capsuleCenter := boxCenter capsule
      let colliderCenter := boxCenter box
      let canStep := box.max.y - st.position.y ≤ CONFIG.stepHeight ∧
                     st.position.y + height > box.min.y
      if (minPenetration = ox ∨ minPenetration = oz) ∧ canStep then
        { position := { st.position with y := box.max.y }
          velocity := if st.velocity.y < 0 then { st.velocity with y := 0 } else st.velocity
          onGround := true }
      else if minPenetration = ox then
        let dir := signOr1 (capsuleCenter.x - colliderCenter.x)
        { st with
          position := { st.position with x := st.position.x + ox * dir }
          velocity := { st.velocity with x := 0 } }
      else if minPenetration = oz then
        let dir := signOr1 (capsuleCenter.z - colliderCenter.z)
        { st with
          position := { st.position with z := st.position.z + oz * dir }
          velocity := { st.velocity with z := 0 } }
      else
        let dir := signOr1 (capsuleCenter.y - colliderCenter.y)
        { position := { st.position with y := st.position.y + oy * dir }
          velocity := if st.velocity.y * dir < 0 then { st.velocity with y := 0 } else st.velocity
          onGround := if 0 < dir then true else st.onGround }

/-- `PhysicsSystem.resolveCollisions` (src/js/physics.js lines 181-235):
single pass over the candidate colliders, mutating position/velocity and
accumulating `onGround`.  The `body.radius || 0.5` / `body.height || 1.6`
fallbacks replace a zero field by the default. -/
def resolveCollisions (body : Body) (colliders : List Box3) : ResolveState :=
  let radius := if body.radius = 0 then 0.5 else body.radius
  let height := if body.height = 0 then 1.6 else body.height
  colliders.foldl (resolveStep radius height)
    ⟨body.position, body.velocity, false⟩

/-- A hit returned by `PhysicsSystem.groundCast`. -/
structure GroundHit where
  point : Vec3
  distance : ℝ

/-- One iteration of the loop in `PhysicsSystem.groundCast`. -/
def groundCastStep (origin : Vec3) (closest : Option GroundHit) (box : Box3) :
    Option GroundHit :=
  if origin.x < box.min.x ∨ origin.x > box.max.x then closest
  else if origin.z < box.min.z ∨ origin.z > box.max.z then closest
  else if origin.y < box.min.y then closest
  else
    let distance := origin.y - box.max.y
    if distance < 0 then closest
    else
      match closest with
      | none => some ⟨⟨origin.x, box.max.y, origin.z⟩, distance⟩
      | some c =>
        if distance < c.distance then some ⟨⟨origin.x, box.max.y, origin.z⟩, distance⟩
        else some c

/-- `PhysicsSystem.groundCast` (src/js/physics.js lines 148-171). -/
def groundCast (position : Vec3) (capsuleHeight : ℝ) (colliders : List Box3) :
    Option GroundHit :=
  if colliders.length = 0 then none
  else
    let origin := { position with y := position.y + capsuleHeight * 0.5 }
    colliders.foldl (groundCastStep origin) none

/-- `PhysicsSystem.sampleGround` (src/js/physics.js lines 139-146): terrain
height plus a finite-difference normal. -/
def sampleGround (position : Vec3) (terrainSampler : ℝ → ℝ → ℝ) : ℝ × Vec3 :=
  let eps : ℝ := 0.6
  let h := terrainSampler position.x position.z
  let hx := terrainSampler (position.x + eps) position.z
  let hz := terrainSampler position.x (position.z + eps)
  (h, vnormalize ⟨h - hx, 2 * eps, h - hz⟩)

/-- `PhysicsSystem.projectOntoPlane`. -/
def projectOntoPlane (vector normal : Vec3) : Vec3 :=
  vsub vector (vsmul (vdot vector normal) normal)

/-- A dynamic volume registered with `registerDynamicVolume`: a box plus an
opaque per-body-per-delta effect callback. -/
def DynamicVolume : Type := Box3 × (Body → ℝ → Body)

/-- `PhysicsSystem.applyVolumes` (src/js/physics.js lines 173-179). -/
def applyVolumes (body : Body) (delta : ℝ) (volumes : List DynamicVolume) : Body :=
  volumes.foldl (fun b vol => if containsPoint vol.1 b.position then vol.2 b delta else b) body

/-- The terrain/ground-contact stage of `PhysicsSystem.integrate`
(src/js/physics.js lines 100-129), applied after collision resolution:
penetration snap-up with friction/bounce; otherwise the two step-assist
branches; otherwise the body keeps the resolved state. -/
def groundStage (body : Body) (st : ResolveState) (delta : ℝ)
    (groundHeight : ℝ) (groundNormal : Vec3) : Body :=
  let desiredHeight := groundHeight + 0.05
  let penetration := desiredHeight - st.position.y
  let movingDownward := st.velocity.y < 0
  let body1 := { body with
    position := st.position, velocity := st.velocity,
    groundNormal := groundNormal, grounded := st.onGround }
  if 0 < penetration then
    let posA := { st.position with y := st.position.y + penetration }
    let vertical := st.velocity.y
    let vyA := if vertical < 0 then 0 else min vertical 1.5
    let horizontal : Vec3 := ⟨st.velocity.x, 0, st.velocity.z⟩
    let slide := projectOntoPlane horizontal groundNormal
    let fr := max 0 (1 - body.friction * delta)
    let vA : Vec3 := ⟨slide.x * fr, vyA, slide.z * fr⟩
    let vB := if vertical < -1 ∧ 0 < body.bounciness then
        vaddScaled vA groundNormal (-vertical * body.bounciness * 0.25)
      else vA
    { body1 with position := posA, velocity := vB, grounded := true }
  else if -CONFIG.stepHeight < penetration ∧ movingDownward then
    { body1 with
      position := { st.position with y := st.position.y + max penetration 0 }
      velocity := { st.velocity with y := max st.velocity.y (-1.5) }
      grounded := true }
  else if |penetration| < 0.25 ∧ movingDownward then
    { body1 with
      position := { st.position with y := lerp st.position.y desiredHeight 0.35 }
      velocity := { st.velocity with y := max st.velocity.y (-2.5) }
      grounded := true }
  else body1

/-- The supporting ground height of `integrate` (src/js/physics.js lines
95-97): the higher of terrain height and collider-cast height, when a
collider hit exists. -/
def chooseGroundHeight (colliderGround : Option GroundHit) (terrainHeight : ℝ) : ℝ :=
  match colliderGround with
  | some c => max terrainHeight c.point.y
  | none => terrainHeight

/-- The ground normal of `integrate` (src/js/physics.js lines 93-98): the
fixed up vector when the collider-cast surface is at least as high as the
terrain (minus a small tolerance), else the terrain normal. -/
def chooseGroundNormal (colliderGround : Option GroundHit) (terrainHeight : ℝ)
    (terrainNormal : Vec3) : Vec3 :=
  match colliderGround with
  | some c => if c.point.y ≥ terrainHeight - 0.01 then (⟨0, 1, 0⟩ : Vec3) else terrainNormal
  | none => terrainNormal

/-- `PhysicsSystem.integrate` (src/js/physics.js lines 74-132).  The collider
list stands for `getNearbyColliders(body.position)` (quantifying over it
covers every chunk configuration); `volumes` is the system's
`dynamicVolumes` list.  Gravity is applied unconditionally — the source has
no `noGravity` or `noCollisions` test. -/
def integrate (body : Body) (delta : ℝ) (terrainSampler : ℝ → ℝ → ℝ)
    (colliders : List Box3) (volumes : List DynamicVolume) : Body :=
  let v1 := vaddScaled body.velocity ⟨0, -CONFIG.gravity, 0⟩ delta
  let v2 : Vec3 := ⟨v1.x * (1 - body.damping * delta), v1.y, v1.z * (1 - body.damping * delta)⟩
  let speed := vlength v2
  let v3 := if speed > CONFIG.terminalVelocity then vsetLength v2 CONFIG.terminalVelocity else v2
  let pos1 := vaddScaled body.position v3 delta
  let st := resolveCollisions { body with position := pos1, velocity := v3 } colliders
  let colliderGround := groundCast st.position body.height colliders
  let terrain := sampleGround st.position terrainSampler
  let groundHeight := chooseGroundHeight colliderGround terrain.1
  let groundNormal := chooseGroundNormal colliderGround terrain.1 terrain.2
  applyVolumes (groundStage body st delta groundHeight groundNormal) delta volumes

end

/- Constants of `PHYSICS_CONFIG` in src/server/jolt-physics-world.js. -/
namespace PHYSICS_CONFIG

noncomputable def fixedTimeStep : ℝ := 1 / 60

def maxSubSteps : ℕ := 4

end PHYSICS_CONFIG

noncomputable section

/-- The `while (accumulator >= fixedTimeStep && steps < maxSubSteps)` loop of
`JoltPhysicsWorld.step`, with the remaining step budget as fuel.  Returns the
accumulator after the loop and the number of sub-steps consumed. -/
def joltSubstepLoop : ℕ → ℝ → ℝ × ℕ
  | 0, acc => (acc, 0)
  | fuel + 1, acc =>
    if acc ≥ PHYSICS_CONFIG.fixedTimeStep then
      let p := joltSubstepLoop fuel (acc - PHYSICS_CONFIG.fixedTimeStep)
      (p.1, p.2 + 1)
    else (acc, 0)

/-- The accumulator logic of `JoltPhysicsWorld.step`
(src/server/jolt-physics-world.js lines 613-649): add `deltaTime`, consume
whole fixed steps up to the sub-step budget, then discard the accumulator if
it still exceeds `fixedTimeStep * maxSubSteps`.  Returns the new accumulator
and the number of sub-steps taken. -/
def joltStepAccumulator (accumulator deltaTime : ℝ) : ℝ × ℕ :=
  let acc1 := accumulator + deltaTime
  let p := joltSubstepLoop PHYSICS_CONFIG.maxSubSteps acc1
  let acc2 := if p.1 > PHYSICS_CONFIG.fixedTimeStep * (PHYSICS_CONFIG.maxSubSteps : ℝ)
    then 0 else p.1
  (acc2, p.2)

end

/-- A quaternion record `{x, y, z, w}` as used by
`PhysicsStateBuffer.slerpQuat`. -/
structure Quat where
  x : ℝ
  y : ℝ
  z : ℝ
  w : ℝ

attribute [ext] Quat

/-- A remote physics state sample stored in a `PhysicsStateBuffer`. -/
structure RState where
  position : Vec3
  rotation : Quat
  velocity : Vec3
  angularVelocity : Vec3
  grounded : Bool
  timestamp : ℝ

noncomputable section

/-- Quaternion dot product. -/
def qdot (a b : Quat) : ℝ := a.x * b.x + a.y * b.y + a.z * b.z + a.w * b.w

/-- Componentwise quaternion negation. -/
def qneg (q : Quat) : Quat := ⟨-q.x, -q.y, -q.z, -q.w⟩

/-- The local `normalize` helper of `slerpQuat`
(src/js/physics-network-client.js lines 98-101): divide by the length when it
is positive, otherwise return the quaternion unchanged. -/
def qnormalize (q : Quat) : Quat :=
  let len := Real.sqrt (q.x * q.x + q.y * q.y + q.z * q.z + q.w * q.w)
  if len > 0 then ⟨q.x / len, q.y / len, q.z / len, q.w / len⟩ else q

/-- `PhysicsStateBuffer.slerpQuat` (src/js/physics-network-client.js lines
96-140): normalize both endpoints, negate one when the dot product is
negative (shorter arc), fall back to normalized lerp for nearly parallel
quaternions, otherwise spherical interpolation. -/
def slerpQuat (a b : Quat) (t : ℝ) : Quat :=
  let qa := qnormalize a
  let qb0 := qnormalize b
  let dot0 := qdot qa qb0
  let qb := if dot0 < 0 then qneg qb0 else qb0
  let dt := if dot0 < 0 then -dot0 else dot0
  if dt > 0.9995 then
    qnormalize ⟨qa.x + (qb.x - qa.x) * t, qa.y + (qb.y - qa.y) * t,
                qa.z + (qb.z - qa.z) * t, qa.w + (qb.w - qa.w) * t⟩
  else
    let theta0 := Real.arccos dt
    let theta := theta0 * t
    let sinTheta := Real.sin theta
    let sinTheta0 := Real.sin theta0
    let s0 := Real.cos theta - dt * sinTheta / sinTheta0
    let s1 := sinTheta / sinTheta0
    qnormalize ⟨qa.x * s0 + qb.x * s1, qa.y * s0 + qb.y * s1,
                qa.z * s0 + qb.z * s1, qa.w * s0 + qb.w * s1⟩

/-- `PhysicsStateBuffer.lerpState` (src/js/physics-network-client.js lines
72-93). -/
def lerpState (a b : RState) (t : ℝ) : RState :=
  { position := ⟨a.position.x + (b.position.x - a.position.x) * t,
                 a.position.y + (b.position.y - a.position.y) * t,
                 a.position.z + (b.position.z - a.position.z) * t⟩
    rotation := slerpQuat a.rotation b.rotation t
    velocity := ⟨a.velocity.x + (b.velocity.x - a.velocity.x) * t,
                 a.velocity.y + (b.velocity.y - a.velocity.y) * t,
                 a.velocity.z + (b.velocity.z - a.velocity.z) * t⟩
    angularVelocity := ⟨a.angularVelocity.x + (b.angularVelocity.x - a.angularVelocity.x) * t,
                        a.angularVelocity.y + (b.angularVelocity.y - a.angularVelocity.y) * t,
                        a.angularVelocity.z + (b.angularVelocity.z - a.angularVelocity.z) * t⟩
    grounded := if t < 0.5 then a.grounded else b.grounded
    timestamp := a.timestamp + (b.timestamp - a.timestamp) * t }

/-- The scan `for (let i = 0; i < this.states.length - 1; i++)` of
`getInterpolatedState`: the first adjacent pair bracketing `renderTime`. -/
def findBracket : List RState → ℝ → Option (RState × RState)
  | a :: b :: rest, renderTime =>
    if a.timestamp ≤ renderTime ∧ b.timestamp ≥ renderTime then some (a, b)
    else findBracket (b :: rest) renderTime
  | _, _ => none

/-- The bracketing-pair selection of `getInterpolatedState`
(src/js/physics-network-client.js lines 40-62): the scanned pair if one
exists, otherwise — when the buffer is ahead of `renderTime` — the last two
samples for extrapolation. -/
def selectPair (states : List RState) (renderTime : ℝ) : Option (RState × RState) :=
  match findBracket states renderTime with
  | some p => some p
  | none =>
    match states.dropLast.getLast?, states.getLast? with
    | some b2, some a2 =>
      if 2 ≤ states.length ∧ renderTime > a2.timestamp then some (b2, a2) else none
    | _, _ => none

/-- `PhysicsStateBuffer.getInterpolatedState`
(src/js/physics-network-client.js lines 35-70).  With fewer than two samples
the latest sample (or `null`) is returned; with a selected pair the
interpolation factor is `(renderTime - before.timestamp) / duration` when the
duration is positive and `0` otherwise, clamped to `[0, 1.5]`. -/
def getInterpolatedState (states : List RState) (renderTime : ℝ) : Option RState :=
  if states.length < 2 then states.getLast?
  else
    match selectPair states renderTime with
    | some (before, after) =>
      let duration := after.timestamp - before.timestamp
      let t := if duration > 0 then (renderTime - before.timestamp) / duration else 0
      let clampedT := max 0 (min 1.5 t)
      some (lerpState before after clampedT)
    | none => states.getLast?

end

/-- A vehicle seat: a role tag plus an occupant handle
(`null` = empty, modelled as `Option` over player identifiers). -/
structure Seat where
  role : String
  occupant : Option ℕ
deriving DecidableEq

/-- An entry of `VehicleManager.listSeats`. -/
structure SeatInfo where
  index : ℕ
  role : String
  occupied : Bool
deriving DecidableEq

/-- `VehicleManager.listSeats` (src/js/physics.js lines 652-659), carrying the
running index of the JS `map((seat, index) => ...)`. -/
def listSeats : List Seat → ℕ → List SeatInfo
  | [], _ => []
  | s :: rest, i => ⟨i, s.role, s.occupant.isSome⟩ :: listSeats rest (i + 1)

/-- `.find(s => s.index === seatIndex)` over the listed seats. -/
def findSeatInfo (infos : List SeatInfo) (seatIndex : ℕ) : Option SeatInfo :=
  infos.find? (fun s => s.index = seatIndex)

/-- Write a seat's occupant handle: the mutation done by
`vacateSeat` (`seat.occupant = null`) and `enterVehicle`
(`seat.occupant = this`), addressed by seat position. -/
def setSeatOccupant : List Seat → ℕ → Option ℕ → List Seat
  | [], _, _ => []
  | s :: rest, 0, occ => { s with occupant := occ } :: rest
  | s :: rest, n + 1, occ => s :: setSeatOccupant rest n occ

/-- The seat-selection callback of `PlayerController.interact` for the
vehicle the player is already in (src/unnamed/part_000 lines 254-271):
missing seat → "Seat unavailable."; the player's own seat → "Already in that
seat."; occupied seat → "Seat occupied."; otherwise vacate the current seat
and enter the chosen one (`enterVehicle`, lines 386-397).  Returns the new
seat list and the status message shown, if any. -/
def selectSeatCurrentVehicle (seats : List Seat) (currentSeat : ℕ) (player : ℕ)
    (action : ℕ) : List Seat × Option String :=
  match findSeatInfo (listSeats seats 0) action with
  | none => (seats, some "Seat unavailable.")
  | some seatInfo =>
    if seatInfo.index = currentSeat then (seats, some "Already in that seat.")
    else if seatInfo.occupied then (seats, some "Seat occupied.")
    else (setSeatOccupant (setSeatOccupant seats currentSeat none) seatInfo.index (some player),
          none)

/-- The seat-selection callback of `PlayerController.interact` for a hovered
vehicle (src/unnamed/part_000 lines 287-296): a missing or occupied seat is
rejected with "Seat unavailable.", otherwise the player enters the seat. -/
def selectSeatHoverVehicle (seats : List Seat) (player : ℕ) (action : ℕ) :
    List Seat × Option String :=
  match findSeatInfo (listSeats seats 0) action with
  | none => (seats, some "Seat unavailable.")
  | some seatInfo =>
    if seatInfo.occupied then (seats, some "Seat unavailable.")
    else (setSeatOccupant seats seatInfo.index (some player), none)

/-- Vehicle type tags of `VehicleManager`. -/
inductive VType
  | tank
  | helicopter
  | jeep
deriving DecidableEq

/-- Seat roles appearing in `fireWeapon`. -/
inductive SeatRole
  | driver
  | topGunner
  | pilot
  | turret
  | gunner
  | passenger
deriving DecidableEq

/-- The vehicle fields read and written by `VehicleManager.fireWeapon` and
`VehicleManager.dropBomb` (src/js/physics.js lines 1733-1777):
`mesh.position` and `body.velocity` are flattened into the record. -/
structure Vehicle where
  vtype : VType
  meshPosition : Vec3
  bodyVelocity : Vec3
  heading : ℝ
  turretYaw : ℝ
  cannonPitch : ℝ
  weaponCooldown : ℝ
  mgCooldown : ℝ
  bombCooldown : ℝ

/-- A presentation event emitted by the weapon system: `createTracer`,
`createExplosion`, or a bomb pushed onto `this.bombs`. -/
inductive Emission
  | tracer (origin direction : Vec3) (color : ℕ) (size speed : ℝ)
  | explosion (center : Vec3) (size : ℝ)
  | bomb (start : Vec3) (velocity : Vec3)

noncomputable section

/-- `Vector3.applyAxisAngle(new THREE.Vector3(0, 1, 0), angle)`: rotation
about the world Y axis. -/
def applyAxisAngleY (v : Vec3) (angle : ℝ) : Vec3 :=
  ⟨v.x * Real.cos angle + v.z * Real.sin angle, v.y,
   -v.x * Real.sin angle + v.z * Real.cos angle⟩

/-- `VehicleManager.dropBomb` (src/js/physics.js lines 1733-1741): no-op
while `bombCooldown > 0`, otherwise spawn a bomb below the vehicle and reset
the cooldown to 2.5. -/
def dropBomb (vehicle : Vehicle) : Vehicle × List Emission :=
  if vehicle.bombCooldown > 0 then (vehicle, [])
  else
    let start := vadd vehicle.meshPosition ⟨0, -1.5, 0⟩
    ({ vehicle with bombCooldown := 2.5 },
     [Emission.bomb start (vadd vehicle.bodyVelocity ⟨0, -4, 0⟩)])

/-- `VehicleManager.fireWeapon` (src/js/physics.js lines 1743-1777).  Each
weapon is gated by its own cooldown (`<= 0` to fire) and resets it to a fixed
per-weapon value; tracers/explosions/bombs are returned as emitted events. -/
def fireWeapon (vehicle : Vehicle) (seatRole : SeatRole) (direction : Option Vec3) :
    Vehicle × List Emission :=
  match vehicle.vtype with
  | VType.tank =>
    let p1 :=
      if seatRole = SeatRole.driver ∧ vehicle.weaponCooldown ≤ 0 then
        let muzzle := vadd vehicle.meshPosition
          (applyAxisAngleY ⟨0, 2.6, 4.2⟩ (vehicle.turretYaw + vehicle.heading))
        let dir := vnormalize ⟨Real.sin (vehicle.turretYaw + vehicle.heading),
          Real.sin vehicle.cannonPitch, Real.cos (vehicle.turretYaw + vehicle.heading)⟩
        ({ vehicle with weaponCooldown := 2.2 },
         [Emission.tracer muzzle dir 0xffd18f 1.4 160,
          Emission.explosion (vaddScaled muzzle dir 2) 1.2])
      else (vehicle, [])
    let v1 := p1.1
    let p2 :=
      if (seatRole = SeatRole.topGunner ∨ seatRole = SeatRole.driver) ∧ v1.mgCooldown ≤ 0 then
        let gun := vadd v1.meshPosition (applyAxisAngleY ⟨0, 3.2, -0.4⟩ v1.heading)
        let dir := direction.getD ⟨Real.sin v1.heading, 0, Real.cos v1.heading⟩
        ({ v1 with mgCooldown := 0.08 },
         [Emission.tracer gun (vnormalize dir) 0xffaa55 0.6 90])
      else (v1, [])
    (p2.1, p1.2 ++ p2.2)
  | VType.helicopter =>
    let p1 :=
      if seatRole = SeatRole.turret ∧ vehicle.weaponCooldown ≤ 0 then
        let nose := vadd vehicle.meshPosition (applyAxisAngleY ⟨0, 1.6, 3.5⟩ vehicle.heading)
        let dir := direction.getD ⟨Real.sin vehicle.heading, 0, Real.cos vehicle.heading⟩
        ({ vehicle with weaponCooldown := 0.12 },
         [Emission.tracer nose (vnormalize dir) 0xffee88 0.6 120])
      else (vehicle, [])
    let v1 := p1.1
    let p2 := if seatRole = SeatRole.pilot then dropBomb v1 else (v1, [])
    (p2.1, p1.2 ++ p2.2)
  | VType.jeep =>
    if seatRole = SeatRole.gunner ∧ vehicle.weaponCooldown ≤ 0 then
      let mount := vadd vehicle.meshPosition (applyAxisAngleY ⟨0, 2.6, 1.8⟩ vehicle.heading)
      let dir := direction.getD ⟨Real.sin vehicle.heading, 0, Real.cos vehicle.heading⟩
      ({ vehicle with weaponCooldown := 0.1 },
       [Emission.tracer mount (vnormalize dir) 0xffaa55 0.5 100])
    else (vehicle, [])

end

noncomputable section

/-- A vehicle chassis body as `registerVehicleColliders` leaves it
(`body.isVehicle = true`), standing with its feet at height 0.5 next to a
low obstacle. -/
def vehicleChassisBody : Body :=
  { position := ⟨0, 0.5, 0⟩, velocity := ⟨0, 0, 0⟩, groundNormal := ⟨0, 1, 0⟩
    radius := 0.5, height := 1.6, mass := 8000, damping := 0.5, friction := 0.1
    bounciness := 0.05, slopeLimit := 0.92
    grounded := false, noGravity := false, noCollisions := false, isVehicle := true }

/-- A static collider whose top (y = 1) is within step-height of the body's
feet and which overlaps the body least along the x axis. -/
def lowLedgeBox : Box3 := ⟨⟨0.3, 0, -2⟩, ⟨3, 1, 2⟩⟩

/-- A player body as `PlayerController.enterVehicle` leaves it:
`noGravity` and `noCollisions` set, and (for a clean trace) moving upward at
exactly `gravity * delta` so that one integration step should leave the
vertical velocity untouched if the flag were honoured. -/
def seatedPlayerBody : Body :=
  { position := ⟨0, 0, 0⟩, velocity := ⟨0, 38.5 * (1 / 60), 0⟩, groundNormal := ⟨0, 1, 0⟩
    radius := 0.5, height := 1.6, mass := 1, damping := 0.35, friction := 10
    bounciness := 0.05, slopeLimit := 0.92
    grounded := false, noGravity := true, noCollisions := true, isVehicle := false }

/-- The tank body registered by `VehicleManager.spawnTank`, at rest. -/
def tankBody : Body :=
  { position := ⟨12, 1.25, 8⟩, velocity := ⟨0, 0, 0⟩, groundNormal := ⟨0, 1, 0⟩
    radius := 2.3, height := 2.4, mass := 8000, damping := 0.5, friction := 0.1
    bounciness := 0.05, slopeLimit := 0.92
    grounded := false, noGravity := false, noCollisions := false, isVehicle := true }

/-- A spawned tank with all weapon cooldowns expired. -/
def patrolTank : Vehicle :=
  { vtype := VType.tank, meshPosition := ⟨12, 1.25, 8⟩, bodyVelocity := ⟨0, 0, 0⟩
    heading := 0, turretYaw := 0, cannonPitch := 0
    weaponCooldown := 0, mgCooldown := 0, bombCooldown := 0 }

/-- A buffered remote sample with a non-normalized rotation record and
timestamp 0. -/
def staleSample : RState :=
  { position := ⟨0, 0, 0⟩, rotation := ⟨0, 0, 0, 2⟩, velocity := ⟨0, 0, 0⟩
    angularVelocity := ⟨0, 0, 0⟩, grounded := false, timestamp := 0 }

end

/-! ## Supporting lemmas -/

lemma applyVolumes_nil (body : Body) (delta : ℝ) : applyVolumes body delta [] = body := rfl

lemma vlengthSq_nonneg (v : Vec3) : 0 ≤ vlengthSq v := by
  unfold vlengthSq; positivity

lemma vlength_nonneg (v : Vec3) : 0 ≤ vlength v := Real.sqrt_nonneg _

/-- A vector whose squared length is at most `150^2` has length at most 150. -/
lemma vlength_le_of_lengthSq_le {v : Vec3} (h : vlengthSq v ≤ 150 ^ 2) :
    vlength v ≤ 150 := by
  have h150 : (150 : ℝ) = Real.sqrt (150 ^ 2) := by
    rw [Real.sqrt_sq (by norm_num : (0:ℝ) ≤ 150)]
  calc vlength v = Real.sqrt (vlengthSq v) := rfl
    _ ≤ Real.sqrt (150 ^ 2) := Real.sqrt_le_sqrt h
    _ = 150 := h150.symm

/-- The velocity clamp of `integrate`: after the terminal-velocity test the
squared speed is at most `150^2`. -/
lemma clamp_lengthSq_le (v : Vec3) :
    vlengthSq (if vlength v > CONFIG.terminalVelocity then
      vsetLength v CONFIG.terminalVelocity else v) ≤ 150 ^ 2 := by
  rw [show CONFIG.terminalVelocity = (150 : ℝ) from rfl]
  split_ifs with h
  · have hpos : 0 < vlength v := lt_trans (by norm_num) h
    have hne : vlength v ≠ 0 := ne_of_gt hpos
    have hsq : vlength v ^ 2 = vlengthSq v := Real.sq_sqrt (vlengthSq_nonneg v)
    unfold vsetLength vnormalize vsmul
    simp only [if_neg hne]
    unfold vlengthSq at *
    have : (150 * (v.x / vlength v)) ^ 2 + (150 * (v.y / vlength v)) ^ 2 +
        (150 * (v.z / vlength v)) ^ 2 = 150 ^ 2 * ((v.x ^ 2 + v.y ^ 2 + v.z ^ 2) / vlength v ^ 2) := by
      field_simp
      ring
    rw [this, hsq]
    rw [div_self (by rw [← hsq] at *; positivity)]
    norm_num
  · push_neg at h
    have hsq : vlengthSq v = vlength v ^ 2 := (Real.sq_sqrt (vlengthSq_nonneg v)).symm
    rw [hsq]
    have := vlength_nonneg v
    nlinarith

/-- Every branch of the collider loop either keeps the velocity or zeroes one
of its components. -/
lemma resolveStep_velocity_cases (radius height : ℝ) (st : ResolveState) (box : Box3) :
    (resolveStep radius height st box).velocity = st.velocity ∨
    (resolveStep radius height st box).velocity = { st.velocity with y := 0 } ∨
    (resolveStep radius height st box).velocity = { st.velocity with x := 0 } ∨
    (resolveStep radius height st box).velocity = { st.velocity with z := 0 } := by
  simp only [resolveStep]
  split_ifs <;> simp

/-- The squared speed never grows across one collider iteration. -/
lemma resolveStep_velocity_le (radius height : ℝ) (st : ResolveState) (box : Box3) :
    vlengthSq (resolveStep radius height st box).velocity ≤ vlengthSq st.velocity := by
  rcases resolveStep_velocity_cases radius height st box with h | h | h | h <;>
    rw [h] <;> simp only [vlengthSq] <;>
    nlinarith [sq_nonneg st.velocity.x, sq_nonneg st.velocity.y, sq_nonneg st.velocity.z]

lemma resolveFold_velocity_le (radius height : ℝ) :
    ∀ (colliders : List Box3) (st : ResolveState),
      vlengthSq (colliders.foldl (resolveStep radius height) st).velocity ≤
        vlengthSq st.velocity
  | [], st => le_refl _
  | box :: rest, st => by
    calc vlengthSq ((box :: rest).foldl (resolveStep radius height) st).velocity
        = vlengthSq (rest.foldl (resolveStep radius height) (resolveStep radius height st box)).velocity := rfl
      _ ≤ vlengthSq (resolveStep radius height st box).velocity :=
          resolveFold_velocity_le radius height rest _
      _ ≤ vlengthSq st.velocity := resolveStep_velocity_le radius height st box

/-- `resolveCollisions` never increases the squared speed. -/
lemma resolveCollisions_velocity_le (body : Body) (colliders : List Box3) :
    vlengthSq (resolveCollisions body colliders).velocity ≤ vlengthSq body.velocity := by
  unfold resolveCollisions
  exact resolveFold_velocity_le _ _ colliders ⟨body.position, body.velocity, false⟩

/-- Normalizing a vector of positive squared length yields a unit vector. -/
lemma vnormalize_unit {w : Vec3} (h : 0 < vlengthSq w) :
    vlengthSq (vnormalize w) = 1 := by
  have hl : vlength w = Real.sqrt (vlengthSq w) := rfl
  have hlpos : 0 < vlength w := by rw [hl]; exact Real.sqrt_pos.mpr h
  have hlsq : vlength w ^ 2 = vlengthSq w := Real.sq_sqrt (le_of_lt h)
  unfold vnormalize
  simp only [if_neg (ne_of_gt hlpos)]
  unfold vlengthSq at *
  field_simp
  linarith [hlsq]

/-- The finite-difference ground normal of `sampleGround` is a unit vector:
its `y` component before normalization is the fixed positive `2 * eps`. -/
lemma sampleGround_normal_unit (position : Vec3) (terrainSampler : ℝ → ℝ → ℝ) :
    vlengthSq (sampleGround position terrainSampler).2 = 1 := by
  unfold sampleGround
  apply vnormalize_unit
  unfold vlengthSq
  have h12 : (0:ℝ) < (2 * 0.6) ^ 2 := by norm_num
  nlinarith [sq_nonneg (terrainSampler position.x position.z -
      terrainSampler (position.x + 0.6) position.z),
    sq_nonneg (terrainSampler position.x position.z -
      terrainSampler position.x (position.z + 0.6))]

/-- Clamping a velocity component from below by a nonpositive bound never
increases its square. -/
lemma clampDown_sq_le (vy c : ℝ) (hc : c ≤ 0) : max vy c ^ 2 ≤ vy ^ 2 := by
  rcases le_or_lt c vy with h | h
  · rw [max_eq_left h]
  · rw [max_eq_right (le_of_lt h)]
    nlinarith

/-- Core inequality for the ground-friction branch without a bounce: the
projected, friction-scaled horizontal velocity together with the clamped
vertical component is no faster than the incoming velocity. -/
lemma slide_core (vx vy vz nx ny nz f vyA : ℝ)
    (hn : nx ^ 2 + ny ^ 2 + nz ^ 2 = 1) (hf0 : 0 ≤ f) (hf1 : f ≤ 1)
    (hvyA : vyA ^ 2 ≤ vy ^ 2) :
    ((vx - (vx * nx + vz * nz) * nx) * f) ^ 2 + vyA ^ 2 +
      ((vz - (vx * nx + vz * nz) * nz) * f) ^ 2 ≤ vx ^ 2 + vy ^ 2 + vz ^ 2 := by
  have hd : (vx * nx + vz * nz) ^ 2 ≤ vx ^ 2 + vz ^ 2 := by
    nlinarith [sq_nonneg (vx * nz - vz * nx), sq_nonneg ny, sq_nonneg (vx * nx + vz * nz)]
  have hf2 : f ^ 2 ≤ 1 := by nlinarith
  nlinarith [sq_nonneg (vx * nx + vz * nz), sq_nonneg ny,
    sq_nonneg ((vx * nx + vz * nz) * ny), sq_nonneg f,
    mul_nonneg (mul_nonneg hf0 hf0) (sq_nonneg (vx * nx + vz * nz)),
    mul_le_one₀ hf1 hf0 hf1]

/-- Core inequality for the bounce branch: after zeroing the vertical
component, applying friction to the projected horizontal velocity and adding
the bounce impulse along the unit ground normal, the speed still does not
exceed the incoming speed (for bounciness at most 1). -/
lemma bounce_core (vx vy vz nx ny nz f b : ℝ)
    (hn : nx ^ 2 + ny ^ 2 + nz ^ 2 = 1) (hf0 : 0 ≤ f) (hf1 : f ≤ 1)
    (hb0 : 0 ≤ b) (hb1 : b ≤ 1) (_hvy : vy < -1) :
    ((vx - (vx * nx + vz * nz) * nx) * f + nx * (-vy * b * 0.25)) ^ 2 +
      (ny * (-vy * b * 0.25)) ^ 2 +
      ((vz - (vx * nx + vz * nz) * nz) * f + nz * (-vy * b * 0.25)) ^ 2
    ≤ vx ^ 2 + vy ^ 2 + vz ^ 2 := by
  have hd : 0 ≤ (vx ^ 2 + vz ^ 2) - (vx * nx + vz * nz) ^ 2 := by
    nlinarith [sq_nonneg (vx * nz - vz * nx), sq_nonneg ny,
      mul_nonneg (add_nonneg (sq_nonneg vx) (sq_nonneg vz)) (sq_nonneg ny)]
  set d := vx * nx + vz * nz with hdd
  set β := -vy * b * 0.25 with hβ
  have hf2 : 0 ≤ 1 - f ^ 2 := by nlinarith
  have hb2 : b ^ 2 ≤ 1 := by nlinarith
  have hvy2 : 2 * β ^ 2 ≤ vy ^ 2 := by
    rw [hβ]
    nlinarith [sq_nonneg vy, sq_nonneg (vy * b), mul_le_mul_of_nonneg_left hb2 (sq_nonneg vy)]
  have hnyb : ny ^ 2 * β ^ 2 ≤ β ^ 2 := by
    have hny1 : ny ^ 2 ≤ 1 := by nlinarith [sq_nonneg nx, sq_nonneg nz]
    nlinarith [sq_nonneg β]
  have expand : ((vx - d * nx) * f + nx * β) ^ 2 + (ny * β) ^ 2 +
      ((vz - d * nz) * f + nz * β) ^ 2
      = f ^ 2 * ((vx ^ 2 + vz ^ 2) - d ^ 2 - d ^ 2 * ny ^ 2) + 2 * f * β * d * ny ^ 2 + β ^ 2 := by
    linear_combination (f * d - β) ^ 2 * hn
  rw [expand]
  nlinarith [mul_nonneg hd hf2, sq_nonneg d, sq_nonneg (ny * (f * d - β)), hvy2, hnyb]

/-- The square of `min v c` is at most `v ^ 2` when both are nonnegative. -/
lemma min_sq_le (v c : ℝ) (hv : 0 ≤ v) (hc : 0 ≤ c) : min v c ^ 2 ≤ v ^ 2 := by
  have h1 := min_le_left v c
  have h2 : 0 ≤ min v c := le_min hv hc
  nlinarith

/-- The ground normal chosen by `integrate` is always a unit vector: either
the fixed up vector (collider contact) or the normalized terrain normal. -/
lemma chooseGroundNormal_unit (cg : Option GroundHit) (th : ℝ) (tn : Vec3)
    (htn : vlengthSq tn = 1) :
    vlengthSq (chooseGroundNormal cg th tn) = 1 := by
  cases cg with
  | none => exact htn
  | some c =>
    simp only [chooseGroundNormal]
    split_ifs
    · norm_num [vlengthSq]
    · exact htn

/-- The ground-contact stage preserves the terminal-velocity bound: given a
unit ground normal, `0 ≤ friction * delta` and bounciness in `[0, 1]`, a body
entering the stage at squared speed at most `150^2` leaves it at squared
speed at most `150^2`. -/
lemma groundStage_velocity_le (body : Body) (st : ResolveState) (delta : ℝ)
    (groundHeight : ℝ) (groundNormal : Vec3)
    (hst : vlengthSq st.velocity ≤ 150 ^ 2) (hgn : vlengthSq groundNormal = 1)
    (hfd : 0 ≤ body.friction * delta)
    (hb0 : 0 ≤ body.bounciness) (hb1 : body.bounciness ≤ 1) :
    vlengthSq (groundStage body st delta groundHeight groundNormal).velocity ≤ 150 ^ 2 := by
  have hgn' : groundNormal.x ^ 2 + groundNormal.y ^ 2 + groundNormal.z ^ 2 = 1 := hgn
  have hst' : st.velocity.x ^ 2 + st.velocity.y ^ 2 + st.velocity.z ^ 2 ≤ 150 ^ 2 := hst
  have hfr0 : (0 : ℝ) ≤ max 0 (1 - body.friction * delta) := le_max_left _ _
  have hfr1 : max 0 (1 - body.friction * delta) ≤ 1 := max_le (by norm_num) (by linarith)
  simp only [groundStage]
  by_cases h1 : 0 < groundHeight + 0.05 - st.position.y
  · rw [if_pos h1]
    by_cases hb : st.velocity.y < -1 ∧ 0 < body.bounciness
    · have hneg : st.velocity.y < 0 := lt_trans hb.1 (by norm_num)
      rw [if_pos hb, if_pos hneg]
      dsimp only
      refine le_trans (le_of_eq ?_)
        (le_trans (bounce_core st.velocity.x st.velocity.y st.velocity.z
          groundNormal.x groundNormal.y groundNormal.z
          (max 0 (1 - body.friction * delta)) body.bounciness
          hgn' hfr0 hfr1 hb0 hb1 hb.1) hst')
      simp only [vlengthSq, vaddScaled, projectOntoPlane, vsub, vsmul, vdot]
      ring
    · rw [if_neg hb]
      by_cases hneg : st.velocity.y < 0
      · rw [if_pos hneg]
        dsimp only
        refine le_trans (le_of_eq ?_)
          (le_trans (slide_core st.velocity.x st.velocity.y st.velocity.z
            groundNormal.x groundNormal.y groundNormal.z
            (max 0 (1 - body.friction * delta)) 0
            hgn' hfr0 hfr1 (by simpa using sq_nonneg st.velocity.y)) hst')
        simp only [vlengthSq, projectOntoPlane, vsub, vsmul, vdot]
        ring
      · rw [if_neg hneg]
        push_neg at hneg
        dsimp only
        refine le_trans (le_of_eq ?_)
          (le_trans (slide_core st.velocity.x st.velocity.y st.velocity.z
            groundNormal.x groundNormal.y groundNormal.z
            (max 0 (1 - body.friction * delta)) (min st.velocity.y 1.5)
            hgn' hfr0 hfr1 (min_sq_le st.velocity.y 1.5 hneg (by norm_num))) hst')
        simp only [vlengthSq, projectOntoPlane, vsub, vsmul, vdot]
        ring
  · rw [if_neg h1]
    by_cases h2 : -CONFIG.stepHeight < groundHeight + 0.05 - st.position.y ∧ st.velocity.y < 0
    · rw [if_pos h2]
      dsimp only [vlengthSq]
      nlinarith [clampDown_sq_le st.velocity.y (-1.5) (by norm_num)]
    · rw [if_neg h2]
      by_cases h3 : |groundHeight + 0.05 - st.position.y| < 0.25 ∧ st.velocity.y < 0
      · rw [if_pos h3]
        dsimp only [vlengthSq]
        nlinarith [clampDown_sq_le st.velocity.y (-2.5) (by norm_num)]
      · rw [if_neg h3]
        exact hst'

/-! ## Claim theorems -/

/-- Claim C1: for every registered body (friction nonnegative, bounciness in
`[0, 1]`, as for every body the game registers) and every nonnegative time
step, after a call to `PhysicsSystem.integrate` the magnitude of the body's
velocity is at most the configured terminal velocity
(`CONFIG.terminalVelocity = 150`) — even though ground-contact resolution
(friction projection and the bounce impulse along the ground normal) runs
after the terminal-velocity clamp.  The volume list is empty because the
repository never calls `registerDynamicVolume`.  Applying the theorem to the
body produced by the previous step covers any number of integration steps. -/
theorem integrate_velocity_le_terminal (body : Body) (delta : ℝ)
    (terrainSampler : ℝ → ℝ → ℝ) (colliders : List Box3)
    (hdelta : 0 ≤ delta) (hfric : 0 ≤ body.friction)
    (hb0 : 0 ≤ body.bounciness) (hb1 : body.bounciness ≤ 1) :
    vlength (integrate body delta terrainSampler colliders []).velocity ≤
      CONFIG.terminalVelocity := by
  rw [show CONFIG.terminalVelocity = (150 : ℝ) from rfl]
  apply vlength_le_of_lengthSq_le
  simp only [integrate, applyVolumes_nil]
  apply groundStage_velocity_le
  · refine le_trans (resolveCollisions_velocity_le _ _) ?_
    exact clamp_lengthSq_le _
  · exact chooseGroundNormal_unit _ _ _ (sampleGround_normal_unit _ _)
  · exact mul_nonneg hfric hdelta
  · exact hb0
  · exact hb1

/-- Witness for C1: the spawned tank body, one 60 Hz step over flat terrain
with no nearby colliders. -/
theorem integrate_velocity_le_terminal_witness :
    vlength (integrate tankBody (1 / 60) (fun _ _ => 0) [] []).velocity ≤
      CONFIG.terminalVelocity :=
  integrate_velocity_le_terminal tankBody (1 / 60) (fun _ _ => 0) []
    (by norm_num) (by norm_num [tankBody]) (by norm_num [tankBody]) (by norm_num [tankBody])

/-- Claim C2: `PhysicsSystem.integrate` adds the gravity contribution to the
vertical velocity even for a body whose `noGravity` flag is set (as
`PlayerController.enterVehicle` sets it): the source applies gravity
unconditionally.  The seated player body rises at exactly `gravity * delta`,
so the claimed behaviour would leave `velocity.y` unchanged; the code
subtracts `gravity * delta`, giving 0. -/
theorem integrate_adds_gravity_despite_noGravity :
    seatedPlayerBody.noGravity = true ∧
    (integrate seatedPlayerBody (1 / 60) (fun _ _ => -1000) [] []).velocity.y =
      seatedPlayerBody.velocity.y - CONFIG.gravity * (1 / 60) ∧
    seatedPlayerBody.velocity.y - CONFIG.gravity * (1 / 60) ≠ seatedPlayerBody.velocity.y := by
  refine ⟨rfl, ?_, by norm_num [seatedPlayerBody, CONFIG.gravity]⟩
  norm_num [integrate, groundStage, chooseGroundHeight, chooseGroundNormal, applyVolumes,
    resolveCollisions, resolveStep, groundCast, sampleGround, vaddScaled, vlength, vlengthSq,
    seatedPlayerBody, CONFIG.gravity, CONFIG.terminalVelocity, CONFIG.stepHeight,
    Real.sqrt_zero, Real.sqrt_eq_zero, lerp]

/-- Claim C3 (counterexample): the steppable-ledge snap-up of
`resolveCollisions` is applied to a body with `isVehicle = true` as well —
the source has no `isVehicle` test, so the vehicle body is snapped on top of
the obstacle (position.y becomes the box top, x is not pushed out). -/
theorem resolveCollisions_step_up_vehicle_counterexample :
    vehicleChassisBody.isVehicle = true ∧
    (resolveCollisions vehicleChassisBody [lowLedgeBox]).position = (⟨0, 1, 0⟩ : Vec3) ∧
    (resolveCollisions vehicleChassisBody [lowLedgeBox]).velocity = vehicleChassisBody.velocity ∧
    (resolveCollisions vehicleChassisBody [lowLedgeBox]).onGround = true := by
  refine ⟨rfl, ?_, ?_, ?_⟩ <;>
    norm_num [resolveCollisions, resolveStep, capsuleBox, intersectsBox, boxCenter, signOr1,
      overlapX, overlapY, overlapZ, CONFIG.stepHeight, vehicleChassisBody, lowLedgeBox,
      min_def, max_def]

/-- If all three overlap depths are positive, the boxes intersect. -/
lemma intersectsBox_of_overlaps_pos {a b : Box3}
    (hx : 0 < overlapX a b) (hy : 0 < overlapY a b) (hz : 0 < overlapZ a b) :
    intersectsBox a b := by
  simp only [overlapX, overlapY, overlapZ] at hx hy hz
  unfold intersectsBox
  push_neg
  refine ⟨?_, ?_, ?_, ?_, ?_, ?_⟩
  · linarith [le_max_left a.min.x b.min.x, min_le_right a.max.x b.max.x]
  · linarith [le_max_right a.min.x b.min.x, min_le_left a.max.x b.max.x]
  · linarith [le_max_left a.min.y b.min.y, min_le_right a.max.y b.max.y]
  · linarith [le_max_right a.min.y b.min.y, min_le_left a.max.y b.max.y]
  · linarith [le_max_left a.min.z b.min.z, min_le_right a.max.z b.max.z]
  · linarith [le_max_right a.min.z b.min.z, min_le_left a.max.z b.max.z]

/-- Claim C3 (amended): for every body — vehicle or not — whose
minimum-penetration axis against a single collider is horizontal and whose
feet are within step-height of the collider top, `resolveCollisions` applies
the snap-up (position.y set to the box top, no horizontal push, `onGround`
marked).  The `isVehicle` flag is never consulted. -/
theorem resolveCollisions_step_up_ignores_isVehicle (body : Body) (box : Box3)
    (hr : body.radius ≠ 0) (hh : body.height ≠ 0)
    (hx : 0 < overlapX (capsuleBox body.position body.radius body.height) box)
    (hy : 0 < overlapY (capsuleBox body.position body.radius body.height) box)
    (hz : 0 < overlapZ (capsuleBox body.position body.radius body.height) box)
    (hmin : min (overlapX (capsuleBox body.position body.radius body.height) box)
        (min (overlapY (capsuleBox body.position body.radius body.height) box)
          (overlapZ (capsuleBox body.position body.radius body.height) box)) =
        overlapX (capsuleBox body.position body.radius body.height) box ∨
      min (overlapX (capsuleBox body.position body.radius body.height) box)
        (min (overlapY (capsuleBox body.position body.radius body.height) box)
          (overlapZ (capsuleBox body.position body.radius body.height) box)) =
        overlapZ (capsuleBox body.position body.radius body.height) box)
    (hstep : box.max.y - body.position.y ≤ CONFIG.stepHeight)
    (hfeet : body.position.y + body.height > box.min.y) :
    (resolveCollisions body [box]).position.y = box.max.y ∧
    (resolveCollisions body [box]).position.x = body.position.x ∧
    (resolveCollisions body [box]).position.z = body.position.z ∧
    (resolveCollisions body [box]).onGround = true := by
  simp only [resolveCollisions]
  rw [if_neg hr, if_neg hh]
  simp only [List.foldl_cons, List.foldl_nil]
  simp only [resolveStep]
  rw [if_neg (not_not_intro (intersectsBox_of_overlaps_pos hx hy hz))]
  rw [if_neg (by push_neg; exact ⟨hx, hy, hz⟩)]
  rw [if_pos ⟨hmin, hstep, hfeet⟩]
  exact ⟨rfl, rfl, rfl, rfl⟩

/-- Witness for C3's amended theorem: the vehicle-flagged chassis body next
to the low ledge satisfies all the geometric side conditions. -/
theorem resolveCollisions_step_up_ignores_isVehicle_witness :
    (resolveCollisions vehicleChassisBody [lowLedgeBox]).position.y = lowLedgeBox.max.y ∧
    (resolveCollisions vehicleChassisBody [lowLedgeBox]).position.x =
      vehicleChassisBody.position.x ∧
    (resolveCollisions vehicleChassisBody [lowLedgeBox]).position.z =
      vehicleChassisBody.position.z ∧
    (resolveCollisions vehicleChassisBody [lowLedgeBox]).onGround = true :=
  resolveCollisions_step_up_ignores_isVehicle vehicleChassisBody lowLedgeBox
    (by norm_num [vehicleChassisBody])
    (by norm_num [vehicleChassisBody])
    (by norm_num [overlapX, capsuleBox, vehicleChassisBody, lowLedgeBox, min_def, max_def])
    (by norm_num [overlapY, capsuleBox, vehicleChassisBody, lowLedgeBox, min_def, max_def])
    (by norm_num [overlapZ, capsuleBox, vehicleChassisBody, lowLedgeBox, min_def, max_def])
    (by left; norm_num [overlapX, overlapY, overlapZ, capsuleBox, vehicleChassisBody,
      lowLedgeBox, min_def, max_def])
    (by norm_num [vehicleChassisBody, lowLedgeBox, CONFIG.stepHeight])
    (by norm_num [vehicleChassisBody, lowLedgeBox])

/-- Looking up seat index `i + k` in the listing that starts at index `i`
finds exactly the seat at position `k`. -/
lemma findSeatInfo_listSeats :
    ∀ (seats : List Seat) (k i : ℕ) (seat : Seat), seats[k]? = some seat →
      findSeatInfo (listSeats seats i) (i + k) =
        some ⟨i + k, seat.role, seat.occupant.isSome⟩
  | [], k, _, _, h => by simp at h
  | s :: rest, 0, i, seat, h => by
    simp only [List.getElem?_cons_zero, Option.some.injEq] at h
    subst h
    simp [listSeats, findSeatInfo, List.find?]
  | s :: rest, k + 1, i, seat, h => by
    simp only [List.getElem?_cons_succ] at h
    have ih := findSeatInfo_listSeats rest k (i + 1) seat h
    have harith : i + (k + 1) = i + 1 + k := by omega
    simp only [listSeats, findSeatInfo] at ih ⊢
    rw [harith]
    rw [List.find?_cons_of_neg _ (by simp; omega)]
    exact ih

/-- Claim C5 (counterexample): attempting to re-enter one's own occupied
seat through the in-vehicle seat panel is rejected with "Already in that
seat." — a third message besides the two the claim lists.  The seat list is
unchanged. -/
theorem seat_rejection_third_message_counterexample :
    selectSeatCurrentVehicle [⟨"driver", some 7⟩] 0 7 0 =
      ([⟨"driver", some 7⟩], some "Already in that seat.") ∧
    "Already in that seat." ≠ "Seat occupied." ∧
    "Already in that seat." ≠ "Seat unavailable." := by
  refine ⟨rfl, by decide, by decide⟩

/-- Claim C5 (amended): an attempt to enter an occupied seat leaves every
seat's occupant unchanged and produces a user-visible rejection: through the
in-vehicle panel "Seat occupied." (or "Already in that seat." when the
occupant is the player themself), through the hover panel
"Seat unavailable."; no other seat state changes (the seat list is returned
as-is), and no double-assignment ever occurs. -/
theorem occupied_seat_entry_rejected (seats : List Seat) (currentSeat player action : ℕ)
    (seat : Seat) (p : ℕ) (hget : seats[action]? = some seat)
    (hocc : seat.occupant = some p) :
    selectSeatCurrentVehicle seats currentSeat player action =
      (seats, some (if action = currentSeat then "Already in that seat."
        else "Seat occupied.")) ∧
    selectSeatHoverVehicle seats player action = (seats, some "Seat unavailable.") := by
  have hfind := findSeatInfo_listSeats seats action 0 seat hget
  simp only [Nat.zero_add] at hfind
  have hocc' : seat.occupant.isSome = true := by rw [hocc]; rfl
  constructor
  · simp only [selectSeatCurrentVehicle, hfind]
    by_cases hcur : action = currentSeat
    · rw [if_pos hcur, if_pos hcur]
    · rw [if_neg hcur, if_neg hcur, if_pos hocc']
  · simp only [selectSeatHoverVehicle, hfind]
    rw [if_pos hocc']

/-- Witness for C5's amended theorem: a two-seat vehicle whose driver seat is
occupied by player 7; player 8 on seat 1 tries to switch into seat 0, and a
hovering player tries to take it. -/
theorem occupied_seat_entry_rejected_witness :
    selectSeatCurrentVehicle [⟨"driver", some 7⟩, ⟨"gunner", none⟩] 1 8 0 =
      ([⟨"driver", some 7⟩, ⟨"gunner", none⟩],
        some (if 0 = 1 then "Already in that seat." else "Seat occupied.")) ∧
    selectSeatHoverVehicle [⟨"driver", some 7⟩, ⟨"gunner", none⟩] 8 0 =
      ([⟨"driver", some 7⟩, ⟨"gunner", none⟩], some "Seat unavailable.") :=
  occupied_seat_entry_rejected [⟨"driver", some 7⟩, ⟨"gunner", none⟩] 1 8 0
    ⟨"driver", some 7⟩ 7 rfl rfl

/-- Claim C6: with exactly one buffered state, `getInterpolatedState`
returns that state unchanged for every render time; with an empty buffer it
returns `null`. -/
theorem getInterpolatedState_single_state (s : RState) (renderTime : ℝ) :
    getInterpolatedState [s] renderTime = some s ∧
    getInterpolatedState [] renderTime = none := by
  constructor <;> simp [getInterpolatedState]

/-- A quaternion of unit dot product is fixed by the slerp normalizer. -/
lemma qnormalize_of_unit {q : Quat} (hq : qdot q q = 1) : qnormalize q = q := by
  unfold qnormalize
  have h1 : q.x * q.x + q.y * q.y + q.z * q.z + q.w * q.w = 1 := hq
  rw [h1, Real.sqrt_one]
  norm_num

/-- Claim C7: for every unit quaternion `q`, `slerpQuat q (-q) 0.5` takes
the shorter arc (the negated endpoint is flipped back) and returns exactly
`q`: a unit quaternion equal (up to sign) to both endpoints, never the zero
quaternion. -/
theorem slerpQuat_antipodal_midpoint (q : Quat) (hq : qdot q q = 1) :
    slerpQuat q (qneg q) (1 / 2) = q ∧
    qdot (slerpQuat q (qneg q) (1 / 2)) (slerpQuat q (qneg q) (1 / 2)) = 1 ∧
    slerpQuat q (qneg q) (1 / 2) ≠ (⟨0, 0, 0, 0⟩ : Quat) := by
  have hqn : qdot (qneg q) (qneg q) = 1 := by
    simp only [qdot, qneg] at hq ⊢
    nlinarith [hq]
  have hda : qdot q (qneg q) = -1 := by
    have : qdot q (qneg q) = -(qdot q q) := by simp only [qdot, qneg]; ring
    rw [this, hq]
  have hmain : slerpQuat q (qneg q) (1 / 2) = q := by
    simp only [slerpQuat, qnormalize_of_unit hq, qnormalize_of_unit hqn, hda]
    norm_num [qneg]
    exact qnormalize_of_unit hq
  refine ⟨hmain, by rw [hmain]; exact hq, ?_⟩
  rw [hmain]
  intro h0
  rw [h0] at hq
  simp [qdot] at hq

/-- Witness for C7: the identity rotation quaternion. -/
theorem slerpQuat_antipodal_midpoint_witness :
    slerpQuat ⟨0, 0, 0, 1⟩ (qneg ⟨0, 0, 0, 1⟩) (1 / 2) = (⟨0, 0, 0, 1⟩ : Quat) ∧
    qdot (slerpQuat ⟨0, 0, 0, 1⟩ (qneg ⟨0, 0, 0, 1⟩) (1 / 2))
      (slerpQuat ⟨0, 0, 0, 1⟩ (qneg ⟨0, 0, 0, 1⟩) (1 / 2)) = 1 ∧
    slerpQuat ⟨0, 0, 0, 1⟩ (qneg ⟨0, 0, 0, 1⟩) (1 / 2) ≠ (⟨0, 0, 0, 0⟩ : Quat) :=
  slerpQuat_antipodal_midpoint ⟨0, 0, 0, 1⟩ (by norm_num [qdot])

/-- The sub-step counter of the fixed-step loop never exceeds its fuel. -/
lemma joltSubstepLoop_count_le : ∀ (fuel : ℕ) (acc : ℝ),
    (joltSubstepLoop fuel acc).2 ≤ fuel
  | 0, _ => le_refl _
  | fuel + 1, acc => by
    simp only [joltSubstepLoop]
    split_ifs
    · exact Nat.succ_le_succ (joltSubstepLoop_count_le fuel _)
    · exact Nat.zero_le _

/-- Claim C8: a call to `JoltPhysicsWorld.step` with nonnegative `deltaTime`
consumes at most `maxSubSteps = 4` fixed sub-steps from the accumulator, and
on return the accumulator is at most `maxSubSteps * fixedTimeStep` (any
excess is discarded), so the bound is an invariant of every step call. -/
theorem joltStep_substeps_and_accumulator_bounded (accumulator deltaTime : ℝ)
    (_hdt : 0 ≤ deltaTime) :
    (joltStepAccumulator accumulator deltaTime).2 ≤ PHYSICS_CONFIG.maxSubSteps ∧
    (joltStepAccumulator accumulator deltaTime).1 ≤
      PHYSICS_CONFIG.fixedTimeStep * (PHYSICS_CONFIG.maxSubSteps : ℝ) := by
  constructor
  · exact joltSubstepLoop_count_le PHYSICS_CONFIG.maxSubSteps (accumulator + deltaTime)
  · simp only [joltStepAccumulator]
    split_ifs with h
    · norm_num [PHYSICS_CONFIG.fixedTimeStep, PHYSICS_CONFIG.maxSubSteps]
    · exact le_of_not_lt h

/-- Witness for C8: an empty accumulator stepped by one 60 Hz frame. -/
theorem joltStep_substeps_and_accumulator_bounded_witness :
    (joltStepAccumulator 0 (1 / 60)).2 ≤ PHYSICS_CONFIG.maxSubSteps ∧
    (joltStepAccumulator 0 (1 / 60)).1 ≤
      PHYSICS_CONFIG.fixedTimeStep * (PHYSICS_CONFIG.maxSubSteps : ℝ) :=
  joltStep_substeps_and_accumulator_bounded 0 (1 / 60) (by norm_num)

/-- Claim C9: every weapon of `fireWeapon` / `dropBomb` is gated by its own
cooldown: while a weapon's cooldown is positive, firing it is a no-op (the
vehicle state is unchanged and nothing is emitted); per-weapon gating is
independent (a hot tank cannon does not stop the ready machine gun); on a
successful fire the cooldown is reset to its fixed value — 2.2 for the tank
cannon, 0.08 for the tank machine gun, 0.12 for the helicopter turret gun,
0.1 for the jeep gun, and 2.5 for the bomb. -/
theorem fireWeapon_cooldown_gating (v : Vehicle) (direction : Option Vec3) (hot rdy : ℝ)
    (hhot : 0 < hot) (hrdy : rdy ≤ 0) :
    (fireWeapon { v with vtype := VType.tank, weaponCooldown := hot, mgCooldown := hot }
        SeatRole.driver direction =
      ({ v with vtype := VType.tank, weaponCooldown := hot, mgCooldown := hot }, [])) ∧
    ((fireWeapon { v with vtype := VType.tank, weaponCooldown := rdy, mgCooldown := rdy }
        SeatRole.driver direction).1 =
      { v with vtype := VType.tank, weaponCooldown := 2.2, mgCooldown := 0.08 } ∧
     (fireWeapon { v with vtype := VType.tank, weaponCooldown := rdy, mgCooldown := rdy }
        SeatRole.driver direction).2.length = 3) ∧
    ((fireWeapon { v with vtype := VType.tank, weaponCooldown := hot, mgCooldown := rdy }
        SeatRole.driver direction).1 =
      { v with vtype := VType.tank, weaponCooldown := hot, mgCooldown := 0.08 } ∧
     (fireWeapon { v with vtype := VType.tank, weaponCooldown := hot, mgCooldown := rdy }
        SeatRole.driver direction).2.length = 1) ∧
    (fireWeapon { v with vtype := VType.helicopter, weaponCooldown := hot }
        SeatRole.turret direction =
      ({ v with vtype := VType.helicopter, weaponCooldown := hot }, [])) ∧
    ((fireWeapon { v with vtype := VType.helicopter, weaponCooldown := rdy }
        SeatRole.turret direction).1 =
      { v with vtype := VType.helicopter, weaponCooldown := 0.12 } ∧
     (fireWeapon { v with vtype := VType.helicopter, weaponCooldown := rdy }
        SeatRole.turret direction).2.length = 1) ∧
    (fireWeapon { v with vtype := VType.helicopter, bombCooldown := hot }
        SeatRole.pilot direction =
      ({ v with vtype := VType.helicopter, bombCooldown := hot }, [])) ∧
    ((fireWeapon { v with vtype := VType.helicopter, bombCooldown := rdy }
        SeatRole.pilot direction).1 =
      { v with vtype := VType.helicopter, bombCooldown := 2.5 } ∧
     (fireWeapon { v with vtype := VType.helicopter, bombCooldown := rdy }
        SeatRole.pilot direction).2.length = 1) ∧
    (fireWeapon { v with vtype := VType.jeep, weaponCooldown := hot }
        SeatRole.gunner direction =
      ({ v with vtype := VType.jeep, weaponCooldown := hot }, [])) ∧
    ((fireWeapon { v with vtype := VType.jeep, weaponCooldown := rdy }
        SeatRole.gunner direction).1 =
      { v with vtype := VType.jeep, weaponCooldown := 0.1 } ∧
     (fireWeapon { v with vtype := VType.jeep, weaponCooldown := rdy }
        SeatRole.gunner direction).2.length = 1) ∧
    (dropBomb { v with bombCooldown := hot } = ({ v with bombCooldown := hot }, [])) ∧
    ((dropBomb { v with bombCooldown := rdy }).1 = { v with bombCooldown := 2.5 } ∧
     (dropBomb { v with bombCooldown := rdy }).2.length = 1) := by
  have hnhot : ¬(hot ≤ 0) := not_le.mpr hhot
  have hnrdy : ¬(rdy > 0) := not_lt.mpr hrdy
  refine ⟨?_, ⟨?_, ?_⟩, ⟨?_, ?_⟩, ?_, ⟨?_, ?_⟩, ?_, ⟨?_, ?_⟩, ?_, ⟨?_, ?_⟩, ?_, ⟨?_, ?_⟩⟩ <;>
    simp [fireWeapon, dropBomb, hnhot, hnrdy, hrdy, hhot]

/-- Witness for C9: the spawned tank with both cooldowns forced hot —
firing as driver changes nothing and emits nothing. -/
theorem fireWeapon_cooldown_gating_witness :
    fireWeapon { patrolTank with vtype := VType.tank, weaponCooldown := 1, mgCooldown := 1 }
      SeatRole.driver none =
      ({ patrolTank with vtype := VType.tank, weaponCooldown := 1, mgCooldown := 1 }, []) :=
  (fireWeapon_cooldown_gating patrolTank none 1 0 (by norm_num) (by norm_num)).1

/-- The slerp normalizer is idempotent. -/
lemma qnormalize_idem (q : Quat) : qnormalize (qnormalize q) = qnormalize q := by
  unfold qnormalize
  by_cases h : Real.sqrt (q.x * q.x + q.y * q.y + q.z * q.z + q.w * q.w) > 0
  · rw [if_pos h]
    have hSpos : 0 < q.x * q.x + q.y * q.y + q.z * q.z + q.w * q.w := Real.sqrt_pos.mp h
    have hne : Real.sqrt (q.x * q.x + q.y * q.y + q.z * q.z + q.w * q.w) ≠ 0 := ne_of_gt h
    have hS' : q.x / Real.sqrt (q.x * q.x + q.y * q.y + q.z * q.z + q.w * q.w) *
          (q.x / Real.sqrt (q.x * q.x + q.y * q.y + q.z * q.z + q.w * q.w)) +
        q.y / Real.sqrt (q.x * q.x + q.y * q.y + q.z * q.z + q.w * q.w) *
          (q.y / Real.sqrt (q.x * q.x + q.y * q.y + q.z * q.z + q.w * q.w)) +
        q.z / Real.sqrt (q.x * q.x + q.y * q.y + q.z * q.z + q.w * q.w) *
          (q.z / Real.sqrt (q.x * q.x + q.y * q.y + q.z * q.z + q.w * q.w)) +
        q.w / Real.sqrt (q.x * q.x + q.y * q.y + q.z * q.z + q.w * q.w) *
          (q.w / Real.sqrt (q.x * q.x + q.y * q.y + q.z * q.z + q.w * q.w)) = 1 := by
      field_simp
    rw [hS', Real.sqrt_one, if_pos one_pos]
    ext <;> simp
  · rw [if_neg h, if_neg h]

/-- `slerpQuat` at interpolation factor 0 returns the normalized first
endpoint, in both the lerp and the spherical branch. -/
lemma slerpQuat_zero (a b : Quat) : slerpQuat a b 0 = qnormalize a := by
  simp only [slerpQuat]
  split_ifs <;>
    simp only [mul_zero, zero_mul, zero_div, sub_zero, add_zero, Real.sin_zero, Real.cos_zero,
      one_mul, mul_one] <;>
    exact qnormalize_idem a

/-- Claim C10 (counterexample): with two buffered states at the same
timestamp, the state returned for that render time is not the earlier
bracketing state: its rotation has been normalized (`w` becomes 1, not the
stored 2). -/
theorem getInterpolatedState_zero_duration_counterexample :
    (getInterpolatedState [staleSample, staleSample] 0).map (fun s => s.rotation.w) =
      some 1 ∧
    staleSample.rotation.w = 2 ∧
    getInterpolatedState [staleSample, staleSample] 0 ≠ some staleSample := by
  have hs4 : Real.sqrt 4 = 2 := by
    rw [show (4 : ℝ) = 2 ^ 2 by norm_num]
    exact Real.sqrt_sq (by norm_num)
  have hqn : qnormalize (⟨0, 0, 0, 2⟩ : Quat) = (⟨0, 0, 0, 1⟩ : Quat) := by
    unfold qnormalize
    norm_num [hs4]
  have hmain : getInterpolatedState [staleSample, staleSample] 0 =
      some (lerpState staleSample staleSample 0) := by
    simp only [getInterpolatedState, selectPair, findBracket, staleSample]
    norm_num
  have hrot : (lerpState staleSample staleSample 0).rotation = (⟨0, 0, 0, 1⟩ : Quat) := by
    simp only [lerpState, slerpQuat_zero]
    rw [show staleSample.rotation = (⟨0, 0, 0, 2⟩ : Quat) from rfl]
    exact hqn
  refine ⟨?_, rfl, ?_⟩
  · rw [hmain]
    simp [hrot]
  · rw [hmain]
    intro hcontra
    have heq := Option.some.inj hcontra
    have hw : (lerpState staleSample staleSample 0).rotation.w = staleSample.rotation.w :=
      congrArg (fun s => s.rotation.w) heq
    rw [hrot] at hw
    simp [staleSample] at hw

/-- Claim C10 (amended): when the two bracketing states selected by
`getInterpolatedState` have equal timestamps, no division by zero occurs —
the interpolation factor is defined to be 0 — and the returned state carries
the earlier state's position, velocity, angular velocity, grounded flag and
timestamp, with its rotation equal to the earlier rotation normalized (hence
the rotation itself whenever it is unit-length or zero). -/
theorem getInterpolatedState_zero_duration (states : List RState) (renderTime : ℝ)
    (before after : RState) (hlen : 2 ≤ states.length)
    (hsel : selectPair states renderTime = some (before, after))
    (hts : after.timestamp = before.timestamp) :
    getInterpolatedState states renderTime = some (lerpState before after 0) ∧
    (lerpState before after 0).position = before.position ∧
    (lerpState before after 0).velocity = before.velocity ∧
    (lerpState before after 0).angularVelocity = before.angularVelocity ∧
    (lerpState before after 0).grounded = before.grounded ∧
    (lerpState before after 0).timestamp = before.timestamp ∧
    (lerpState before after 0).rotation = qnormalize before.rotation := by
  have hdur : ¬(after.timestamp - before.timestamp > 0) := by rw [hts]; simp
  have hct : max (0 : ℝ) (min 1.5 0) = 0 := by norm_num
  refine ⟨?_, ?_, ?_, ?_, ?_, ?_, ?_⟩
  · simp only [getInterpolatedState, hsel]
    rw [if_neg (not_lt.mpr hlen), if_neg hdur, hct]
  · ext <;> simp [lerpState]
  · ext <;> simp [lerpState]
  · ext <;> simp [lerpState]
  · simp only [lerpState]
    norm_num
  · simp [lerpState]
  · simp only [lerpState, slerpQuat_zero]

/-- Witness for C10's amended theorem: the two equal-timestamp samples. -/
theorem getInterpolatedState_zero_duration_witness :
    getInterpolatedState [staleSample, staleSample] 0 =
      some (lerpState staleSample staleSample 0) ∧
    (lerpState staleSample staleSample 0).position = staleSample.position ∧
    (lerpState staleSample staleSample 0).velocity = staleSample.velocity ∧
    (lerpState staleSample staleSample 0).angularVelocity = staleSample.angularVelocity ∧
    (lerpState staleSample staleSample 0).grounded = staleSample.grounded ∧
    (lerpState staleSample staleSample 0).timestamp = staleSample.timestamp ∧
    (lerpState staleSample staleSample 0).rotation = qnormalize staleSample.rotation :=
  getInterpolatedState_zero_duration [staleSample, staleSample] 0 staleSample staleSample
    (by norm_num) (by simp [selectPair, findBracket, staleSample]) rfl

end Cyberia
